import Mathlib

/-!
# Bootstrap lifecycle of the command-line template: logger and profiling hooks

A shallow embedding of `cmd/logging.go` and `cmd/root.go`.

* Go strings are Lean `String`s. All patterns the code searches for are ASCII,
  so matching on characters and matching on bytes agree on UTF-8 text.
* The environment variable `NO_COLOR` is an explicit argument `noColor`
  (the result of `os.Getenv("NO_COLOR")`, the empty string when unset).
* `log.Fatal()` ends the process; functions that can reach it return `Except`.
* The operating system (file creation, the CPU sampler, the heap writer) is a
  per-call record of outcomes, and every external effect is appended to a trace.
-/

namespace Bootstrap

/-! ## Values of type `interface{}` and the two `fmt` verbs used by `Colorize` -/

/-- The fragment of Go's dynamic values needed for `interface{}` arguments. -/
inductive Value where
  | nil : Value
  | str (s : String) : Value
  | int (n : Int) : Value
  | bool (b : Bool) : Value
  /-- An error or `fmt.Stringer` whose `Error()` or `String()` method returns `s`. -/
  | stringer (s : String) : Value
  deriving DecidableEq, Repr

/-- Decimal rendering of a Go `int`, as the verb `%d` prints it. -/
def fmtD (n : Int) : String :=
  if n < 0 then "-" ++ Nat.repr n.natAbs else Nat.repr n.toNat

/-- Go's rendering of a boolean under `%v`. -/
def fmtBool (b : Bool) : String :=
  if b then "true" else "false"

/-- Rendering under `fmt.Sprintf("%s", x)`: a string is printed as is, every other
operand of this fragment is a bad-verb report. -/
def fmtS : Value → String
  | Value.nil => "%!s(<nil>)"
  | Value.str s => s
  | Value.int n => "%!s(int=" ++ fmtD n ++ ")"
  | Value.bool b => "%!s(bool=" ++ fmtBool b ++ ")"
  | Value.stringer s => s

/-- Rendering under `fmt.Sprintf("%v", x)`. -/
def fmtV : Value → String
  | Value.nil => "<nil>"
  | Value.str s => s
  | Value.int n => fmtD n
  | Value.bool b => fmtBool b
  | Value.stringer s => s

/-! ## `Colorize` (logging.go, lines 67-76) -/

/-- `Colorize(input, colorNum, disabled)` with `noColor = os.Getenv("NO_COLOR")`. -/
def Colorize (noColor : String) (input : Value) (colorNum : Int) (disabled : Bool) : String :=
  if disabled || (noColor != "" || colorNum == 0) then
    fmtS input
  else
    "\x1b[" ++ fmtD colorNum ++ "m" ++ fmtV input ++ "\x1b[0m"

/-! ## `strings.ReplaceAll` for a non-empty pattern -/

/-- Left-to-right scan replacing non-overlapping occurrences of `old` by `new`.
The counter is the number of characters of the current match still to be skipped. -/
def replaceAux (old new : List Char) : Nat → List Char → List Char
  | _, [] => []
  | k + 1, _ :: cs => replaceAux old new k cs
  | 0, c :: cs =>
    if old.isPrefixOf (c :: cs) then new ++ replaceAux old new (old.length - 1) cs
    else c :: replaceAux old new 0 cs

/-- `strings.ReplaceAll(s, old, new)`; the source only calls it with a non-empty `old`. -/
def ReplaceAll (s old new : String) : String :=
  ⟨replaceAux old.data new.data 0 s.data⟩

/-- Whether `sub` occurs in `s` (`strings.Contains` on character lists). -/
def containsSub (sub : List Char) : List Char → Bool
  | [] => sub.isEmpty
  | c :: cs => sub.isPrefixOf (c :: cs) || containsSub sub cs

/-! ## `SetupLogger` and its error-field formatter (logging.go, lines 38-62) -/

/-- The three nested `strings.ReplaceAll` calls of the formatter (lines 47-50). -/
def cleanErr (e : String) : String :=
  ReplaceAll (ReplaceAll (ReplaceAll e "\\t" " ") "\\n" " | ") "|  |" "|"

/-- The closure stored in `FormatErrFieldValue`. The type assertion `err.(string)`
panics on any operand that is not a string: that is `none`. -/
def FormatErrFieldValue (noColor : String) (enableColor : Bool) : Value → Option String
  | Value.str e =>
    let colorRed : Int := 31
    let colorBold : Int := 1
    let s := cleanErr e
    some (Colorize noColor (Value.str (Colorize noColor (Value.str s) colorBold (!enableColor)))
      colorRed (!enableColor))
  | _ => none

/-- The fields of `zerolog.ConsoleWriter` that `SetupLogger` sets (`Out` is standard error). -/
structure ConsoleWriter where
  NoColor : Bool
  FormatErrFieldValue : Value → Option String

/-- A `zerolog.Logger` writing to a console writer. -/
structure Logger where
  writer : ConsoleWriter

/-- `SetupLogger(enableColor)`. -/
def SetupLogger (noColor : String) (enableColor : Bool) : Logger :=
  { writer :=
      { NoColor := !enableColor
        FormatErrFieldValue := FormatErrFieldValue noColor enableColor } }

/-! ## `ConfigureLogger` (logging.go, lines 12-35) -/

/-- The zerolog severities the code can select. -/
inductive Level where
  | DebugLevel | InfoLevel | WarnLevel | ErrorLevel | FatalLevel | PanicLevel
  deriving DecidableEq, Repr

/-- zerolog's numeric value of a severity. -/
def Level.toInt : Level → Int
  | Level.DebugLevel => 0
  | Level.InfoLevel => 1
  | Level.WarnLevel => 2
  | Level.ErrorLevel => 3
  | Level.FatalLevel => 4
  | Level.PanicLevel => 5

/-- An OS file handle, identified by the order of its creation. -/
abbrev File := Nat

/-- `CmdRootOptions` (root.go, lines 40-51). -/
structure CmdRootOptions where
  Debug : Bool
  LogLevel : String
  Color : Bool
  ProfilingDir : String
  ProfilingCPUFile : Option File
  deriving DecidableEq, Repr

/-- The process-wide logging state: zerolog's global level and `log.Logger`. -/
structure LogState where
  globalLevel : Level
  logger : Logger

/-- `ConfigureLogger(debug)`, reading `RootConfig`. `Except.error` is the process exit
of `log.Fatal()`, carrying the diagnostic. -/
def ConfigureLogger (noColor : String) (RootConfig : CmdRootOptions) (debug : Bool)
    (st : LogState) : Except String LogState :=
  let setLevel : Except String Level :=
    if debug then Except.ok Level.DebugLevel
    else if RootConfig.LogLevel = "debug" then Except.ok Level.DebugLevel
    else if RootConfig.LogLevel = "info" then Except.ok Level.InfoLevel
    else if RootConfig.LogLevel = "warn" then Except.ok Level.WarnLevel
    else if RootConfig.LogLevel = "error" then Except.ok Level.ErrorLevel
    else if RootConfig.LogLevel = "fatal" then Except.ok Level.FatalLevel
    else if RootConfig.LogLevel = "panic" then Except.ok Level.PanicLevel
    else Except.error ("invalid log level: " ++ RootConfig.LogLevel)
  match setLevel with
  | Except.ok l => Except.ok { st with globalLevel := l, logger := SetupLogger noColor RootConfig.Color }
  | Except.error msg => Except.error msg

/-- The six recognised level names with their severities. -/
def levelNames : List (String × Level) :=
  [("debug", Level.DebugLevel), ("info", Level.InfoLevel), ("warn", Level.WarnLevel),
   ("error", Level.ErrorLevel), ("fatal", Level.FatalLevel), ("panic", Level.PanicLevel)]

/-- Whether a run of `ConfigureLogger` ended in `log.Fatal()`. -/
def isFatal {α : Type} : Except String α → Bool
  | Except.ok _ => false
  | Except.error _ => true

/-- The global severity after a run of `ConfigureLogger` that returned. -/
def levelOf : Except String LogState → Option Level
  | Except.ok st => some st.globalLevel
  | Except.error _ => none

/-- The escape character, byte 27. -/
def ESC : String := "\x1b"

/-! ## Profiling lifecycle (root.go, lines 91-127) -/

/-- External effects of the profiling hooks, in the order they happen. A path is kept
as the pair of arguments given to `filepath.Join`; `close f` is one call of `Close` on
the handle `f`, and `fatal` is the process exit of `log.Fatal()`. -/
inductive Effect where
  | create (dir base : String) (f : File)
  | createFailed (dir base : String)
  | startCPU (f : File)
  | startCPUFailed (f : File)
  | stopCPU
  | close (f : File)
  | gc
  | writeHeap (f : File)
  | writeHeapFailed (f : File)
  | fatal (msg : String)
  deriving DecidableEq, Repr

/-- What the operating system and the runtime answer during one hook call. -/
structure Outcomes where
  /-- Whether `os.Create` succeeds. -/
  createOk : Bool
  /-- Whether `pprof.StartCPUProfile` succeeds when no profile is running. -/
  startOk : Bool
  /-- Whether `pprof.WriteHeapProfile` succeeds. -/
  writeOk : Bool
  deriving DecidableEq, Repr

/-- The process as the profiling hooks see it: `RootConfig`, the next fresh file
handle, whether the CPU sampler runs, and the effects so far. -/
structure Proc where
  RootConfig : CmdRootOptions
  nextFile : Nat
  cpuProfiling : Bool
  trace : List Effect
  deriving DecidableEq, Repr

/-- `ProfilingInitializer()`. `Except.error` is the process exit of `log.Fatal()`,
carrying the state at exit. `pprof.StartCPUProfile` also fails when a profile is
already running. -/
def ProfilingInitializer (os : Outcomes) (p : Proc) : Except Proc Proc :=
  if p.RootConfig.ProfilingDir != "" then
    if os.createOk then
      let f := p.nextFile
      let p1 : Proc :=
        { p with
          RootConfig := { p.RootConfig with ProfilingCPUFile := some f }
          nextFile := f + 1
          trace := p.trace ++ [Effect.create p.RootConfig.ProfilingDir "profile_cpu.pb.gz" f] }
      if os.startOk && !p1.cpuProfiling then
        Except.ok { p1 with cpuProfiling := true, trace := p1.trace ++ [Effect.startCPU f] }
      else
        Except.error
          { p1 with
            trace := p1.trace ++
              [Effect.startCPUFailed f, Effect.fatal "could not create CPU profile: "] }
    else
      Except.error
        { p with
          RootConfig := { p.RootConfig with ProfilingCPUFile := none }
          trace := p.trace ++
            [Effect.createFailed p.RootConfig.ProfilingDir "profile_cpu.pb.gz",
             Effect.fatal "could not create CPU profile: "] }
  else
    Except.ok p

/-- `ProfilingFinalizer()`. The result of closing the CPU file is discarded by the code. -/
def ProfilingFinalizer (os : Outcomes) (p : Proc) : Except Proc Proc :=
  if p.RootConfig.ProfilingDir != "" then
    let p1 : Proc := { p with cpuProfiling := false, trace := p.trace ++ [Effect.stopCPU] }
    let p2 : Proc :=
      match p1.RootConfig.ProfilingCPUFile with
      | some f => { p1 with trace := p1.trace ++ [Effect.close f] }
      | none => p1
    let p3 : Proc := { p2 with trace := p2.trace ++ [Effect.gc] }
    if os.createOk then
      let h := p3.nextFile
      let p4 : Proc :=
        { p3 with
          nextFile := h + 1
          trace := p3.trace ++ [Effect.create p.RootConfig.ProfilingDir "profile_heap.pb.gz" h] }
      if os.writeOk then
        Except.ok { p4 with trace := p4.trace ++ [Effect.writeHeap h, Effect.close h] }
      else
        Except.error
          { p4 with
            trace := p4.trace ++
              [Effect.writeHeapFailed h, Effect.close h,
               Effect.fatal "could not write memory profile: "] }
    else
      Except.error
        { p3 with
          trace := p3.trace ++
            [Effect.createFailed p.RootConfig.ProfilingDir "profile_heap.pb.gz",
             Effect.fatal "could not write memory profile: "] }
  else
    Except.ok p

/-- The two profiling hooks. -/
inductive Hook where
  | initializer
  | finalizer
  deriving DecidableEq, Repr

/-- One hook call. -/
def step (c : Hook × Outcomes) (p : Proc) : Except Proc Proc :=
  match c.1 with
  | Hook.initializer => ProfilingInitializer c.2 p
  | Hook.finalizer => ProfilingFinalizer c.2 p

/-- A sequence of hook calls; it stops at the first call that ends the process. -/
def run : List (Hook × Outcomes) → Proc → Except Proc Proc
  | [], p => Except.ok p
  | c :: cs, p =>
    match step c p with
    | Except.ok p1 => run cs p1
    | Except.error p1 => Except.error p1

/-- The state a run ends in, whether the process is still alive or has exited. -/
def finalProc : Except Proc Proc → Proc
  | Except.ok p => p
  | Except.error p => p

/-- The process before any hook has run: `RootConfig` holds the parsed flags and a nil
`ProfilingCPUFile`. -/
def initialProc (flags : CmdRootOptions) : Proc :=
  { RootConfig := { flags with ProfilingCPUFile := none }
    nextFile := 0
    cpuProfiling := false
    trace := [] }

/-- The flag defaults registered in `init()`, with a given `--profiledir`. -/
def defaultFlags (profiledir : String) : CmdRootOptions :=
  { Debug := false, LogLevel := "info", Color := true, ProfilingDir := profiledir,
    ProfilingCPUFile := none }

/-- Every external call succeeds. -/
def allOk : Outcomes := { createOk := true, startOk := true, writeOk := true }

/-- The `Close` call the finalizer makes on the stored CPU file, if a handle is stored. -/
def closeCPU (p : Proc) : List Effect :=
  match p.RootConfig.ProfilingCPUFile with
  | some f => [Effect.close f]
  | none => []

/-- What the handle invariant says of a state: every closed handle and the stored handle
are handles already handed out, and the stored handle was created as the CPU file. -/
def HandleInv (p : Proc) : Prop :=
  (∀ f, Effect.close f ∈ p.trace → f < p.nextFile) ∧
    ∀ f, p.RootConfig.ProfilingCPUFile = some f →
      f < p.nextFile ∧
        Effect.create p.RootConfig.ProfilingDir "profile_cpu.pb.gz" f ∈ p.trace

/-! ## Facts about the replacement scan -/

theorem replaceAux_skip (old new pre ys : List Char) :
    replaceAux old new pre.length (pre ++ ys) = replaceAux old new 0 ys := by
  induction pre with
  | nil => rfl
  | cons x xs ih => simpa [replaceAux] using ih

theorem replaceAux_match (h : Char) (t new ys : List Char) :
    replaceAux (h :: t) new 0 (h :: t ++ ys) = new ++ replaceAux (h :: t) new 0 ys := by
  have hp : (h :: t).isPrefixOf (h :: (t ++ ys)) = true := by
    simp [List.isPrefixOf]
  rw [List.cons_append, replaceAux, if_pos hp]
  simp only [List.length_cons, Nat.add_sub_cancel]
  rw [replaceAux_skip]

theorem replaceAux_nohead (h : Char) (t new xs ys : List Char) (hx : h ∉ xs) :
    replaceAux (h :: t) new 0 (xs ++ ys) = xs ++ replaceAux (h :: t) new 0 ys := by
  induction xs with
  | nil => rfl
  | cons x xs ih =>
    have hne : h ≠ x := fun e => hx (by simp [e])
    have hxs : h ∉ xs := fun m => hx (List.mem_cons_of_mem _ m)
    simp [replaceAux, List.isPrefixOf, hne, ih hxs]

theorem replaceAux_none (h : Char) (t new xs : List Char) (hx : h ∉ xs) :
    replaceAux (h :: t) new 0 xs = xs := by
  have := replaceAux_nohead h t new xs [] hx
  simpa [replaceAux] using this

theorem Colorize_eq_fmtS (noColor : String) (v : Value) (c : Int) (disabled : Bool)
    (h : disabled = true ∨ noColor ≠ "" ∨ c = 0) :
    Colorize noColor v c disabled = fmtS v := by
  unfold Colorize
  rcases h with h | h | h <;> simp [h]

/-- The first substitution on `a \t b \n c`: only the tab escape is rewritten. -/
theorem replace_tab_shape (a b c : List Char) (ha : '\\' ∉ a) (hb : '\\' ∉ b) (hc : '\\' ∉ c) :
    replaceAux ['\\', 't'] [' '] 0 (a ++ (['\\', 't'] ++ (b ++ ('\\' :: 'n' :: c)))) =
      a ++ (' ' :: (b ++ ('\\' :: 'n' :: c))) := by
  have hn : '\\' ∉ 'n' :: c := by
    intro m
    rcases List.mem_cons.1 m with e | m
    · exact absurd e (by decide)
    · exact hc m
  have tail : replaceAux ['\\', 't'] [' '] 0 ('\\' :: 'n' :: c) = '\\' :: 'n' :: c := by
    have hp : ['\\', 't'].isPrefixOf ('\\' :: 'n' :: c) = false := by
      simp [List.isPrefixOf]
    rw [replaceAux, hp, replaceAux_none _ _ _ _ hn]
    simp
  rw [replaceAux_nohead _ _ _ _ _ ha, replaceAux_match, replaceAux_nohead _ _ _ _ _ hb, tail]
  rfl

/-- The second substitution: the newline escape becomes the delimiter. -/
theorem replace_newline_shape (a b c : List Char) (ha : '\\' ∉ a) (hb : '\\' ∉ b)
    (hc : '\\' ∉ c) :
    replaceAux ['\\', 'n'] [' ', '|', ' '] 0 (a ++ (' ' :: (b ++ ('\\' :: 'n' :: c)))) =
      a ++ (' ' :: (b ++ (' ' :: '|' :: ' ' :: c))) := by
  have hsb : '\\' ∉ ' ' :: b := by
    intro m
    rcases List.mem_cons.1 m with e | m
    · exact absurd e (by decide)
    · exact hb m
  have e1 : ' ' :: (b ++ ('\\' :: 'n' :: c)) = (' ' :: b) ++ (['\\', 'n'] ++ c) := rfl
  rw [replaceAux_nohead _ _ _ _ _ ha, e1, replaceAux_nohead _ _ _ _ _ hsb, replaceAux_match,
    replaceAux_none _ _ _ _ hc]
  rfl

/-- The cleanup leaves a single delimiter alone when the rest has no pipe. -/
theorem replace_pipes_shape (a b c : List Char) (ha : '|' ∉ a) (hb : '|' ∉ b) (hc : '|' ∉ c) :
    replaceAux ['|', ' ', ' ', '|'] ['|'] 0 (a ++ (' ' :: (b ++ (' ' :: '|' :: ' ' :: c)))) =
      a ++ (' ' :: (b ++ (' ' :: '|' :: ' ' :: c))) := by
  have hsb : '|' ∉ ' ' :: b := by
    intro m
    rcases List.mem_cons.1 m with e | m
    · exact absurd e (by decide)
    · exact hb m
  have hs : '|' ∉ [' '] := by decide
  have hsc : '|' ∉ ' ' :: c := by
    intro m
    rcases List.mem_cons.1 m with e | m
    · exact absurd e (by decide)
    · exact hc m
  have hp : ['|', ' ', ' ', '|'].isPrefixOf ('|' :: ' ' :: c) = false := by
    cases c with
    | nil => rfl
    | cons x xs =>
      cases xs with
      | nil => simp [List.isPrefixOf]
      | cons y ys =>
        have hy : '|' ≠ y := fun e => hc (by simp [← e])
        simp [List.isPrefixOf, hy]
  have tail : replaceAux ['|', ' ', ' ', '|'] ['|'] 0 ('|' :: ' ' :: c) = '|' :: ' ' :: c := by
    rw [replaceAux, hp, replaceAux_none _ _ _ _ hsc]
    simp
  have e1 : ' ' :: (b ++ (' ' :: '|' :: ' ' :: c)) = (' ' :: b) ++ ([' '] ++ ('|' :: ' ' :: c)) := rfl
  rw [replaceAux_nohead _ _ _ _ _ ha, e1, replaceAux_nohead _ _ _ _ _ hsb,
    replaceAux_nohead _ _ _ _ _ hs, tail]

/-- The cleaned form of `a \t b \n c` when `a`, `b`, `c` have no backslash and no pipe. -/
theorem cleanErr_tab_newline (a b c : String)
    (ha : '\\' ∉ a.data ∧ '|' ∉ a.data) (hb : '\\' ∉ b.data ∧ '|' ∉ b.data)
    (hc : '\\' ∉ c.data ∧ '|' ∉ c.data) :
    cleanErr (a ++ "\\t" ++ b ++ "\\n" ++ c) = a ++ " " ++ b ++ " | " ++ c := by
  apply String.ext
  have hin : (a ++ "\\t" ++ b ++ "\\n" ++ c).data =
      a.data ++ (['\\', 't'] ++ (b.data ++ ('\\' :: 'n' :: c.data))) := by
    simp [String.data_append]
  have hout : (a ++ " " ++ b ++ " | " ++ c).data =
      a.data ++ (' ' :: (b.data ++ (' ' :: '|' :: ' ' :: c.data))) := by
    simp [String.data_append]
  rw [hout]
  show replaceAux ['|', ' ', ' ', '|'] ['|'] 0 (replaceAux ['\\', 'n'] [' ', '|', ' '] 0
    (replaceAux ['\\', 't'] [' '] 0 (a ++ "\\t" ++ b ++ "\\n" ++ c).data)) = _
  rw [hin, replace_tab_shape _ _ _ ha.1 hb.1 hc.1, replace_newline_shape _ _ _ ha.1 hb.1 hc.1,
    replace_pipes_shape _ _ _ ha.2 hb.2 hc.2]

/-! ## The handle invariant of the profiling hooks -/

theorem HandleInv_initial (flags : CmdRootOptions) : HandleInv (initialProc flags) := by
  simp [HandleInv, initialProc]

theorem ProfilingInitializer_off (os : Outcomes) (p : Proc)
    (hd : p.RootConfig.ProfilingDir = "") : ProfilingInitializer os p = Except.ok p := by
  simp [ProfilingInitializer, hd]

theorem ProfilingInitializer_createFail (os : Outcomes) (p : Proc)
    (hd : p.RootConfig.ProfilingDir ≠ "") (hc : os.createOk = false) :
    ProfilingInitializer os p = Except.error
      { p with
        RootConfig := { p.RootConfig with ProfilingCPUFile := none }
        trace := p.trace ++
          [Effect.createFailed p.RootConfig.ProfilingDir "profile_cpu.pb.gz",
           Effect.fatal "could not create CPU profile: "] } := by
  simp [ProfilingInitializer, hd, hc]

theorem ProfilingInitializer_started (os : Outcomes) (p : Proc)
    (hd : p.RootConfig.ProfilingDir ≠ "") (hc : os.createOk = true)
    (hs : (os.startOk && !p.cpuProfiling) = true) :
    ProfilingInitializer os p = Except.ok
      { RootConfig := { p.RootConfig with ProfilingCPUFile := some p.nextFile }
        nextFile := p.nextFile + 1
        cpuProfiling := true
        trace := p.trace ++
          [Effect.create p.RootConfig.ProfilingDir "profile_cpu.pb.gz" p.nextFile,
           Effect.startCPU p.nextFile] } := by
  simp only [Bool.and_eq_true, Bool.not_eq_true'] at hs
  simp [ProfilingInitializer, hd, hc, hs.1, hs.2]

theorem ProfilingInitializer_startFail (os : Outcomes) (p : Proc)
    (hd : p.RootConfig.ProfilingDir ≠ "") (hc : os.createOk = true)
    (hs : (os.startOk && !p.cpuProfiling) = false) :
    ProfilingInitializer os p = Except.error
      { RootConfig := { p.RootConfig with ProfilingCPUFile := some p.nextFile }
        nextFile := p.nextFile + 1
        cpuProfiling := p.cpuProfiling
        trace := p.trace ++
          [Effect.create p.RootConfig.ProfilingDir "profile_cpu.pb.gz" p.nextFile,
           Effect.startCPUFailed p.nextFile, Effect.fatal "could not create CPU profile: "] } := by
  have hs2 : ¬ (os.startOk = true ∧ p.cpuProfiling = false) := by
    intro h
    simp [h.1, h.2] at hs
  simp [ProfilingInitializer, hd, hc, hs2]

theorem ProfilingFinalizer_off (os : Outcomes) (p : Proc)
    (hd : p.RootConfig.ProfilingDir = "") : ProfilingFinalizer os p = Except.ok p := by
  simp [ProfilingFinalizer, hd]

theorem ProfilingFinalizer_createFail (os : Outcomes) (p : Proc)
    (hd : p.RootConfig.ProfilingDir ≠ "") (hc : os.createOk = false) :
    ProfilingFinalizer os p = Except.error
      { p with
        cpuProfiling := false
        trace := p.trace ++ (Effect.stopCPU :: closeCPU p ++
          [Effect.gc, Effect.createFailed p.RootConfig.ProfilingDir "profile_heap.pb.gz",
           Effect.fatal "could not write memory profile: "]) } := by
  cases hh : p.RootConfig.ProfilingCPUFile <;>
    simp [ProfilingFinalizer, closeCPU, hd, hc, hh]

theorem ProfilingFinalizer_written (os : Outcomes) (p : Proc)
    (hd : p.RootConfig.ProfilingDir ≠ "") (hc : os.createOk = true) (hw : os.writeOk = true) :
    ProfilingFinalizer os p = Except.ok
      { p with
        cpuProfiling := false
        nextFile := p.nextFile + 1
        trace := p.trace ++ (Effect.stopCPU :: closeCPU p ++
          [Effect.gc, Effect.create p.RootConfig.ProfilingDir "profile_heap.pb.gz" p.nextFile,
           Effect.writeHeap p.nextFile, Effect.close p.nextFile]) } := by
  cases hh : p.RootConfig.ProfilingCPUFile <;>
    simp [ProfilingFinalizer, closeCPU, hd, hc, hw, hh]

theorem ProfilingFinalizer_writeFail (os : Outcomes) (p : Proc)
    (hd : p.RootConfig.ProfilingDir ≠ "") (hc : os.createOk = true) (hw : os.writeOk = false) :
    ProfilingFinalizer os p = Except.error
      { p with
        cpuProfiling := false
        nextFile := p.nextFile + 1
        trace := p.trace ++ (Effect.stopCPU :: closeCPU p ++
          [Effect.gc, Effect.create p.RootConfig.ProfilingDir "profile_heap.pb.gz" p.nextFile,
           Effect.writeHeapFailed p.nextFile, Effect.close p.nextFile,
           Effect.fatal "could not write memory profile: "]) } := by
  cases hh : p.RootConfig.ProfilingCPUFile <;>
    simp [ProfilingFinalizer, closeCPU, hd, hc, hw, hh]

theorem mem_closeCPU (p : Proc) (e : Effect) (h : e ∈ closeCPU p) :
    ∃ f, p.RootConfig.ProfilingCPUFile = some f ∧ e = Effect.close f := by
  unfold closeCPU at h
  cases hh : p.RootConfig.ProfilingCPUFile with
  | none => simp [hh] at h
  | some g =>
    simp [hh] at h
    exact ⟨g, rfl, h⟩

theorem ProfilingInitializer_dir (os : Outcomes) (p : Proc) :
    (finalProc (ProfilingInitializer os p)).RootConfig.ProfilingDir = p.RootConfig.ProfilingDir := by
  by_cases hd : p.RootConfig.ProfilingDir = ""
  · rw [ProfilingInitializer_off os p hd]; rfl
  cases hc : os.createOk
  · rw [ProfilingInitializer_createFail os p hd hc]; rfl
  cases hs : (os.startOk && !p.cpuProfiling)
  · rw [ProfilingInitializer_startFail os p hd hc hs]; rfl
  · rw [ProfilingInitializer_started os p hd hc hs]; rfl

theorem ProfilingFinalizer_config (os : Outcomes) (p : Proc) :
    (finalProc (ProfilingFinalizer os p)).RootConfig = p.RootConfig := by
  by_cases hd : p.RootConfig.ProfilingDir = ""
  · rw [ProfilingFinalizer_off os p hd]; rfl
  cases hc : os.createOk
  · rw [ProfilingFinalizer_createFail os p hd hc]; rfl
  cases hw : os.writeOk
  · rw [ProfilingFinalizer_writeFail os p hd hc hw]; rfl
  · rw [ProfilingFinalizer_written os p hd hc hw]; rfl

theorem ProfilingInitializer_inv (os : Outcomes) (p : Proc) (hp : HandleInv p) :
    HandleInv (finalProc (ProfilingInitializer os p)) := by
  obtain ⟨hcl, hf⟩ := hp
  by_cases hd : p.RootConfig.ProfilingDir = ""
  · rw [ProfilingInitializer_off os p hd]; exact ⟨hcl, hf⟩
  cases hc : os.createOk
  · rw [ProfilingInitializer_createFail os p hd hc]
    refine ⟨fun f hm => ?_, fun f hm => ?_⟩
    · simp only [finalProc, List.mem_append, List.mem_cons, List.mem_singleton,
        List.not_mem_nil, or_false] at hm
      rcases hm with hm | hm | hm
      · exact hcl f hm
      · cases hm
      · cases hm
    · simp [finalProc] at hm
  cases hs : (os.startOk && !p.cpuProfiling)
  · rw [ProfilingInitializer_startFail os p hd hc hs]
    refine ⟨fun f hm => ?_, fun f hm => ?_⟩
    · simp only [finalProc, List.mem_append, List.mem_cons, List.mem_singleton,
        List.not_mem_nil, or_false] at hm
      rcases hm with hm | hm | hm | hm
      · exact Nat.lt_succ_of_lt (hcl f hm)
      · cases hm
      · cases hm
      · cases hm
    · simp only [finalProc, Option.some.injEq] at hm
      subst hm
      simp [finalProc]
  · rw [ProfilingInitializer_started os p hd hc hs]
    refine ⟨fun f hm => ?_, fun f hm => ?_⟩
    · simp only [finalProc, List.mem_append, List.mem_cons, List.mem_singleton,
        List.not_mem_nil, or_false] at hm
      rcases hm with hm | hm | hm
      · exact Nat.lt_succ_of_lt (hcl f hm)
      · cases hm
      · cases hm
    · simp only [finalProc, Option.some.injEq] at hm
      subst hm
      simp [finalProc]

theorem ProfilingFinalizer_inv (os : Outcomes) (p : Proc) (hp : HandleInv p) :
    HandleInv (finalProc (ProfilingFinalizer os p)) := by
  obtain ⟨hcl, hf⟩ := hp
  have hcpu : ∀ f, Effect.close f ∈ closeCPU p → f < p.nextFile := by
    intro f hm
    obtain ⟨g, hg, he⟩ := mem_closeCPU p _ hm
    cases he
    exact (hf f hg).1
  by_cases hd : p.RootConfig.ProfilingDir = ""
  · rw [ProfilingFinalizer_off os p hd]; exact ⟨hcl, hf⟩
  cases hc : os.createOk
  · rw [ProfilingFinalizer_createFail os p hd hc]
    refine ⟨fun f hm => ?_, fun f hm => ?_⟩
    · simp only [finalProc, List.mem_append, List.mem_cons, List.mem_singleton,
        List.not_mem_nil, or_false, or_assoc] at hm
      rcases hm with hm | hm | hm | hm | hm | hm
      · exact hcl f hm
      · cases hm
      · exact hcpu f hm
      · cases hm
      · cases hm
      · cases hm
    · obtain ⟨h1, h2⟩ := hf f hm
      exact ⟨h1, List.mem_append_left _ h2⟩
  cases hw : os.writeOk
  · rw [ProfilingFinalizer_writeFail os p hd hc hw]
    refine ⟨fun f hm => ?_, fun f hm => ?_⟩
    · simp only [finalProc, List.mem_append, List.mem_cons, List.mem_singleton,
        List.not_mem_nil, or_false, or_assoc] at hm
      rcases hm with hm | hm | hm | hm | hm | hm | hm | hm
      · exact Nat.lt_succ_of_lt (hcl f hm)
      · cases hm
      · exact Nat.lt_succ_of_lt (hcpu f hm)
      · cases hm
      · cases hm
      · cases hm
      · cases hm
        exact Nat.lt_succ_self _
      · cases hm
    · obtain ⟨h1, h2⟩ := hf f hm
      exact ⟨Nat.lt_succ_of_lt h1, List.mem_append_left _ h2⟩
  · rw [ProfilingFinalizer_written os p hd hc hw]
    refine ⟨fun f hm => ?_, fun f hm => ?_⟩
    · simp only [finalProc, List.mem_append, List.mem_cons, List.mem_singleton,
        List.not_mem_nil, or_false, or_assoc] at hm
      rcases hm with hm | hm | hm | hm | hm | hm | hm
      · exact Nat.lt_succ_of_lt (hcl f hm)
      · cases hm
      · exact Nat.lt_succ_of_lt (hcpu f hm)
      · cases hm
      · cases hm
      · cases hm
      · cases hm
        exact Nat.lt_succ_self _
    · obtain ⟨h1, h2⟩ := hf f hm
      exact ⟨Nat.lt_succ_of_lt h1, List.mem_append_left _ h2⟩

theorem step_inv (c : Hook × Outcomes) (p : Proc) (hp : HandleInv p) :
    HandleInv (finalProc (step c p)) := by
  unfold step
  cases c.1
  · exact ProfilingInitializer_inv c.2 p hp
  · exact ProfilingFinalizer_inv c.2 p hp

theorem step_dir (c : Hook × Outcomes) (p : Proc) :
    (finalProc (step c p)).RootConfig.ProfilingDir = p.RootConfig.ProfilingDir := by
  unfold step
  cases c.1
  · exact ProfilingInitializer_dir c.2 p
  · simp [ProfilingFinalizer_config]

theorem run_inv (calls : List (Hook × Outcomes)) (p : Proc) (hp : HandleInv p) :
    HandleInv (finalProc (run calls p)) ∧
      (finalProc (run calls p)).RootConfig.ProfilingDir = p.RootConfig.ProfilingDir := by
  induction calls generalizing p with
  | nil => exact ⟨hp, rfl⟩
  | cons c cs ih =>
    have h1 := step_inv c p hp
    have h2 := step_dir c p
    unfold run
    cases hs : step c p with
    | ok p1 =>
      rw [hs] at h1 h2
      simp only [finalProc] at h1 h2
      obtain ⟨i1, i2⟩ := ih p1 h1
      exact ⟨i1, i2.trans h2⟩
    | error p1 =>
      rw [hs] at h1 h2
      exact ⟨h1, h2⟩

theorem ProfilingInitializer_close_count (os : Outcomes) (p : Proc) (f : File) :
    (finalProc (ProfilingInitializer os p)).trace.count (Effect.close f) =
      p.trace.count (Effect.close f) := by
  by_cases hd : p.RootConfig.ProfilingDir = ""
  · rw [ProfilingInitializer_off os p hd]; rfl
  cases hc : os.createOk
  · rw [ProfilingInitializer_createFail os p hd hc]
    simp [finalProc]
  cases hs : (os.startOk && !p.cpuProfiling)
  · rw [ProfilingInitializer_startFail os p hd hc hs]
    simp [finalProc]
  · rw [ProfilingInitializer_started os p hd hc hs]
    simp [finalProc]

theorem ProfilingFinalizer_close_count (os : Outcomes) (p : Proc) (f : File)
    (hd : p.RootConfig.ProfilingDir ≠ "") (hf : p.RootConfig.ProfilingCPUFile = some f)
    (hlt : f < p.nextFile) :
    (finalProc (ProfilingFinalizer os p)).trace.count (Effect.close f) =
      p.trace.count (Effect.close f) + 1 := by
  have hcpu : closeCPU p = [Effect.close f] := by
    simp [closeCPU, hf]
  have hne : ¬ (p.nextFile = f) := fun e => absurd hlt (e ▸ Nat.lt_irrefl _)
  have hne2 : ¬ (f = p.nextFile) := fun e => hne e.symm
  cases hc : os.createOk
  · rw [ProfilingFinalizer_createFail os p hd hc]
    simp [finalProc, hcpu]
  cases hw : os.writeOk
  · rw [ProfilingFinalizer_writeFail os p hd hc hw]
    simp [finalProc, hcpu, hne, hne2, List.count_cons]
  · rw [ProfilingFinalizer_written os p hd hc hw]
    simp [finalProc, hcpu, hne, hne2, List.count_cons]

/-! ## The colour formatter -/

/-- C2: for a string value and a non-zero colour code, with `disabled` false and
`NO_COLOR` empty, `Colorize` yields ESC "[" decimal(c) "m" v ESC "[0m". -/
theorem Colorize_wrap (v : String) (c : Int) (hc : c ≠ 0) :
    Colorize "" (Value.str v) c false = ESC ++ "[" ++ fmtD c ++ "m" ++ v ++ ESC ++ "[0m" := by
  have h1 : "\x1b[" = ESC ++ "[" := by decide
  have h2 : "\x1b[0m" = ESC ++ "[0m" := by decide
  unfold Colorize
  simp only [Bool.false_or, bne_self_eq_false, beq_iff_eq, hc, decide_False, Bool.false_eq_true,
    if_false, fmtV]
  rw [h1, h2]
  simp only [String.append_assoc]

theorem Colorize_wrap_witness :
    Colorize "" (Value.str "boom") 31 false = ESC ++ "[" ++ fmtD 31 ++ "m" ++ "boom" ++ ESC ++ "[0m" :=
  Colorize_wrap "boom" 31 (by decide)

/-- C5 fails for nil: with colour code 0 the nil value is rendered as the bad-verb
report of `%s`, not as the empty string. -/
theorem Colorize_nil_not_empty :
    Colorize "" Value.nil 0 false = "%!s(<nil>)" ∧ Colorize "" Value.nil 0 false ≠ "" := by
  decide

/-- C5, amended: `Colorize` is a total function. The empty string is rendered as the
empty string, alone in the plain case and between the escape pair otherwise; nil is
rendered as `%!s(<nil>)` in the plain case and as `<nil>` between the escape pair
otherwise. -/
theorem Colorize_empty_and_nil (noColor : String) (c : Int) (disabled : Bool) :
    Colorize noColor (Value.str "") c disabled =
        (if disabled = true ∨ noColor ≠ "" ∨ c = 0 then ""
         else ESC ++ "[" ++ fmtD c ++ "m" ++ "" ++ ESC ++ "[0m") ∧
      Colorize noColor Value.nil c disabled =
        (if disabled = true ∨ noColor ≠ "" ∨ c = 0 then "%!s(<nil>)"
         else ESC ++ "[" ++ fmtD c ++ "m" ++ "<nil>" ++ ESC ++ "[0m") := by
  have h1 : "\x1b[" = ESC ++ "[" := by decide
  have h2 : "\x1b[0m" = ESC ++ "[0m" := by decide
  by_cases h : disabled = true ∨ noColor ≠ "" ∨ c = 0
  · rw [if_pos h, if_pos h]
    exact ⟨Colorize_eq_fmtS noColor _ c disabled h, Colorize_eq_fmtS noColor _ c disabled h⟩
  · rw [if_neg h, if_neg h]
    have hd : disabled = false := by
      cases disabled
      · rfl
      · exact absurd (Or.inl rfl) h
    have hn : noColor = "" := by
      by_contra hne
      exact h (Or.inr (Or.inl hne))
    have hc : c ≠ 0 := fun e => h (Or.inr (Or.inr e))
    subst hd hn
    unfold Colorize
    simp only [Bool.false_or, bne_self_eq_false, beq_iff_eq, hc, decide_False,
      Bool.false_eq_true, if_false, fmtV]
    rw [h1, h2]
    simp only [String.append_assoc, and_self]

/-! ## The error-field formatter -/

/-- C10: the formatter installed by `SetupLogger(enableColor)` wraps the cleaned text
in bold (1) and then in red (31) when `enableColor` is true and `NO_COLOR` is empty,
and returns the cleaned text itself otherwise. -/
theorem SetupLogger_formatter_wrap (noColor e : String) (enableColor : Bool) :
    (SetupLogger noColor enableColor).writer.FormatErrFieldValue (Value.str e) =
      some (if enableColor = true ∧ noColor = "" then
              ESC ++ "[31m" ++ ESC ++ "[1m" ++ cleanErr e ++ ESC ++ "[0m" ++ ESC ++ "[0m"
            else cleanErr e) := by
  have h31 : "\x1b[" ++ fmtD 31 ++ "m" = ESC ++ "[31m" := by decide
  have h1 : "\x1b[" ++ fmtD 1 ++ "m" = ESC ++ "[1m" := by decide
  have h0 : "\x1b[0m" = ESC ++ "[0m" := by decide
  simp only [SetupLogger, FormatErrFieldValue]
  by_cases h : enableColor = true ∧ noColor = ""
  · obtain ⟨hc, hn⟩ := h
    subst hc hn
    simp only [Colorize, Bool.not_true, Bool.false_or, bne_self_eq_false, and_self, if_true, fmtV]
    have z31 : ((31 : Int) == 0) = false := by decide
    have z1 : ((1 : Int) == 0) = false := by decide
    simp only [z31, z1, Bool.false_eq_true, if_false]
    rw [h31, h1, h0]
    simp only [String.append_assoc]
  · rw [if_neg h]
    have hp : ∀ c : Int, (!enableColor) = true ∨ noColor ≠ "" ∨ c = 0 := by
      intro c
      by_cases hc : enableColor = true
      · exact Or.inr (Or.inl (fun hn => h ⟨hc, hn⟩))
      · left
        simpa using hc
    rw [(Colorize_eq_fmtS noColor _ 1 _ (hp 1)), (Colorize_eq_fmtS noColor _ 31 _ (hp 31))]
    rfl

/-- C6: with colour disabled (the colour option false, or `NO_COLOR` non-empty) the
formatter turns the tab escape into one space and the newline escape into " | ": for
`a`, `b`, `c` without backslash and pipe, `a \t b \n c` is formatted as `a b | c`. -/
theorem SetupLogger_formatter_tab_newline (noColor : String) (enableColor : Bool)
    (a b c : String) (hoff : enableColor = false ∨ noColor ≠ "")
    (ha : '\\' ∉ a.data ∧ '|' ∉ a.data) (hb : '\\' ∉ b.data ∧ '|' ∉ b.data)
    (hc : '\\' ∉ c.data ∧ '|' ∉ c.data) :
    (SetupLogger noColor enableColor).writer.FormatErrFieldValue
        (Value.str (a ++ "\\t" ++ b ++ "\\n" ++ c)) =
      some (a ++ " " ++ b ++ " | " ++ c) := by
  have hp : ∀ k : Int, (!enableColor) = true ∨ noColor ≠ "" ∨ k = 0 := by
    intro k
    rcases hoff with h | h
    · exact Or.inl (by simp [h])
    · exact Or.inr (Or.inl h)
  simp only [SetupLogger, FormatErrFieldValue]
  rw [Colorize_eq_fmtS noColor _ 1 _ (hp 1), Colorize_eq_fmtS noColor _ 31 _ (hp 31)]
  simp only [fmtS]
  rw [cleanErr_tab_newline a b c ha hb hc]

theorem SetupLogger_formatter_tab_newline_witness :
    (SetupLogger "" false).writer.FormatErrFieldValue (Value.str "a\\tb\\nc") = some "a b | c" :=
  SetupLogger_formatter_tab_newline "" false "a" "b" "c" (Or.inl rfl)
    (by decide) (by decide) (by decide)

/-- C9 fails on three consecutive newline escapes: the single cleanup pass consumes the
middle pipe with the first match, and the formatted text still contains "|  |". -/
theorem SetupLogger_formatter_triple_newline :
    (SetupLogger "" false).writer.FormatErrFieldValue (Value.str "\\n\\n\\n") = some " |  | " ∧
      containsSub "|  |".data " |  | ".data = true := by
  decide

/-! ## Level selection -/

/-- C3: with `debug = false`, `ConfigureLogger` sets the global severity to the level
named by `RootConfig.LogLevel` for each of the six names, and ends in `log.Fatal()`
exactly when `RootConfig.LogLevel` is none of the six names. -/
theorem ConfigureLogger_named (noColor : String) (cfg : CmdRootOptions) (st : LogState) :
    (∀ p ∈ levelNames,
        levelOf (ConfigureLogger noColor { cfg with LogLevel := p.1 } false st) = some p.2) ∧
      (isFatal (ConfigureLogger noColor cfg false st) = true ↔
        cfg.LogLevel ∉ levelNames.map Prod.fst) := by
  constructor
  · intro p hp
    simp only [levelNames, List.mem_cons, List.mem_singleton, List.not_mem_nil, or_false] at hp
    rcases hp with rfl | rfl | rfl | rfl | rfl | rfl <;>
      simp [ConfigureLogger, levelOf]
  · simp only [levelNames, List.map_cons, List.map_nil, List.mem_cons, List.not_mem_nil,
      or_false, not_or]
    unfold ConfigureLogger
    simp only [Bool.false_eq_true, if_false]
    by_cases h1 : cfg.LogLevel = "debug"
    · simp [h1, isFatal]
    by_cases h2 : cfg.LogLevel = "info"
    · simp [h2, isFatal]
    by_cases h3 : cfg.LogLevel = "warn"
    · simp [h3, isFatal]
    by_cases h4 : cfg.LogLevel = "error"
    · simp [h4, isFatal]
    by_cases h5 : cfg.LogLevel = "fatal"
    · simp [h5, isFatal]
    by_cases h6 : cfg.LogLevel = "panic"
    · simp [h6, isFatal]
    simp [h1, h2, h3, h4, h5, h6, isFatal]

/-- C4: `ConfigureLogger(true)` selects debug severity and does not reach
`log.Fatal()`, whatever the named level is. -/
theorem ConfigureLogger_debug (noColor : String) (cfg : CmdRootOptions) (st : LogState) :
    levelOf (ConfigureLogger noColor cfg true st) = some Level.DebugLevel ∧
      isFatal (ConfigureLogger noColor cfg true st) = false := by
  simp [ConfigureLogger, levelOf, isFatal]

/-! ## Profiling hooks -/

/-- C8: with an empty `ProfilingDir` both hooks return normally and leave the whole
process state, effect trace included, as it was. -/
theorem Profiling_disabled_noop (os : Outcomes) (p : Proc) (h : p.RootConfig.ProfilingDir = "") :
    ProfilingInitializer os p = Except.ok p ∧ ProfilingFinalizer os p = Except.ok p := by
  simp [ProfilingInitializer, ProfilingFinalizer, h]

theorem Profiling_disabled_noop_witness :
    ProfilingInitializer allOk (initialProc (defaultFlags "")) =
        Except.ok (initialProc (defaultFlags "")) ∧
      ProfilingFinalizer allOk (initialProc (defaultFlags "")) =
        Except.ok (initialProc (defaultFlags "")) :=
  Profiling_disabled_noop allOk (initialProc (defaultFlags "")) rfl

/-- C7 fails in both parts. After a successful initializer and its finalizer the field
still holds handle 0, which the finalizer has closed. After a second finalizer `Close`
has been called on handle 0 twice. A second initializer right after the first ends the
process with the field holding handle 1 and no `Close` call on either handle. -/
theorem Profiling_handle_kept :
    ((finalProc (run [(Hook.initializer, allOk), (Hook.finalizer, allOk)]
        (initialProc (defaultFlags "prof")))).RootConfig.ProfilingCPUFile = some 0 ∧
      (finalProc (run [(Hook.initializer, allOk), (Hook.finalizer, allOk)]
        (initialProc (defaultFlags "prof")))).trace =
        [Effect.create "prof" "profile_cpu.pb.gz" 0, Effect.startCPU 0, Effect.stopCPU,
         Effect.close 0, Effect.gc, Effect.create "prof" "profile_heap.pb.gz" 1,
         Effect.writeHeap 1, Effect.close 1]) ∧
      (finalProc (run [(Hook.initializer, allOk), (Hook.finalizer, allOk),
          (Hook.finalizer, allOk)]
        (initialProc (defaultFlags "prof")))).trace.count (Effect.close 0) = 2 ∧
      (run [(Hook.initializer, allOk), (Hook.initializer, allOk)]
          (initialProc (defaultFlags "prof")) =
        Except.error
          { RootConfig := { defaultFlags "prof" with ProfilingCPUFile := some 1 }
            nextFile := 2
            cpuProfiling := true
            trace :=
              [Effect.create "prof" "profile_cpu.pb.gz" 0, Effect.startCPU 0,
               Effect.create "prof" "profile_cpu.pb.gz" 1, Effect.startCPUFailed 1,
               Effect.fatal "could not create CPU profile: "] }) :=
  ⟨by decide, by decide, rfl⟩

/-- C7, amended: in every state reachable by hook calls, a non-nil `ProfilingCPUFile`
is a handle that a successful `os.Create` of the initializer returned. The finalizer
never resets the field. The initializer makes no `Close` call. Every finalizer call
with a profiling directory and a stored handle makes exactly one more `Close` call on
that handle. So when the initializer succeeds, the handle it stores has not been
closed, and the finalizer that follows closes it exactly once and leaves it in the
field. -/
theorem Profiling_handle_lifecycle (flags : CmdRootOptions) (calls : List (Hook × Outcomes)) :
    (∀ f, (finalProc (run calls (initialProc flags))).RootConfig.ProfilingCPUFile = some f →
        Effect.create flags.ProfilingDir "profile_cpu.pb.gz" f ∈
          (finalProc (run calls (initialProc flags))).trace) ∧
      ∀ p, run calls (initialProc flags) = Except.ok p →
        (∀ os, (finalProc (ProfilingFinalizer os p)).RootConfig.ProfilingCPUFile =
            p.RootConfig.ProfilingCPUFile) ∧
        (∀ os f, (finalProc (ProfilingInitializer os p)).trace.count (Effect.close f) =
            p.trace.count (Effect.close f)) ∧
        (∀ os f, p.RootConfig.ProfilingDir ≠ "" → p.RootConfig.ProfilingCPUFile = some f →
            (finalProc (ProfilingFinalizer os p)).trace.count (Effect.close f) =
              p.trace.count (Effect.close f) + 1) ∧
        ∀ os1 os2 p1, p.RootConfig.ProfilingDir ≠ "" →
          ProfilingInitializer os1 p = Except.ok p1 →
          ∃ f, p1.RootConfig.ProfilingCPUFile = some f ∧
            p1.trace.count (Effect.close f) = 0 ∧
            (finalProc (ProfilingFinalizer os2 p1)).RootConfig.ProfilingCPUFile = some f ∧
            (finalProc (ProfilingFinalizer os2 p1)).trace.count (Effect.close f) = 1 := by
  obtain ⟨hinv, hdir⟩ := run_inv calls (initialProc flags) (HandleInv_initial flags)
  refine ⟨fun f hf => ?_, fun p hp => ?_⟩
  · have := (hinv.2 f hf).2
    rw [hdir] at this
    exact this
  rw [hp] at hinv
  refine ⟨fun os => ?_, fun os f => ProfilingInitializer_close_count os p f,
    fun os f hd hf => ProfilingFinalizer_close_count os p f hd hf (hinv.2 f hf).1,
    fun os1 os2 p1 hd hi => ?_⟩
  · rw [ProfilingFinalizer_config]
  · have hcl : ∀ f, Effect.close f ∈ p.trace → f < p.nextFile := hinv.1
    have hfresh : Effect.close p.nextFile ∉ p.trace := fun hm =>
      absurd (hcl _ hm) (Nat.lt_irrefl _)
    cases hc : os1.createOk
    · rw [ProfilingInitializer_createFail os1 p hd hc] at hi
      cases hi
    cases hs : (os1.startOk && !p.cpuProfiling)
    · rw [ProfilingInitializer_startFail os1 p hd hc hs] at hi
      cases hi
    have hcount := ProfilingInitializer_close_count os1 p p.nextFile
    rw [hi] at hcount
    rw [ProfilingInitializer_started os1 p hd hc hs] at hi
    have e := (Except.ok.inj hi).symm
    have hfile : p1.RootConfig.ProfilingCPUFile = some p.nextFile := by rw [e]
    have hd1 : p1.RootConfig.ProfilingDir ≠ "" := by rw [e]; exact hd
    have hnext : p1.nextFile = p.nextFile + 1 := by rw [e]
    have hzero : p1.trace.count (Effect.close p.nextFile) = 0 := by
      have h0 : (finalProc (Except.ok p1 : Except Proc Proc)).trace = p1.trace := rfl
      rw [h0] at hcount
      rw [hcount]
      exact List.count_eq_zero.2 hfresh
    refine ⟨p.nextFile, hfile, hzero, ?_, ?_⟩
    · rw [ProfilingFinalizer_config, hfile]
    · rw [ProfilingFinalizer_close_count os2 p1 p.nextFile hd1 hfile
        (by rw [hnext]; exact Nat.lt_succ_self _), hzero]

theorem Profiling_handle_lifecycle_witness :
    (finalProc (ProfilingFinalizer allOk
        { RootConfig := { defaultFlags "prof" with ProfilingCPUFile := some 0 }
          nextFile := 1
          cpuProfiling := true
          trace := [Effect.create "prof" "profile_cpu.pb.gz" 0, Effect.startCPU 0] }
      )).RootConfig.ProfilingCPUFile = some 0 ∧
      (finalProc (ProfilingFinalizer allOk
        { RootConfig := { defaultFlags "prof" with ProfilingCPUFile := some 0 }
          nextFile := 1
          cpuProfiling := true
          trace := [Effect.create "prof" "profile_cpu.pb.gz" 0, Effect.startCPU 0] }
      )).trace.count (Effect.close 0) = 1 := by
  obtain ⟨f, h1, _, h3, h4⟩ :=
    ((Profiling_handle_lifecycle (defaultFlags "prof") []).2
      (initialProc (defaultFlags "prof")) rfl).2.2.2 allOk allOk
      { RootConfig := { defaultFlags "prof" with ProfilingCPUFile := some 0 }
        nextFile := 1
        cpuProfiling := true
        trace := [Effect.create "prof" "profile_cpu.pb.gz" 0, Effect.startCPU 0] }
      (by decide) rfl
  cases h1
  exact ⟨h3, h4⟩

theorem ConfigureLogger_named_witness :
    isFatal (ConfigureLogger "" (defaultFlags "") false
        { globalLevel := Level.DebugLevel, logger := SetupLogger "" true }) = false ∧
      levelOf (ConfigureLogger "" (defaultFlags "") false
        { globalLevel := Level.DebugLevel, logger := SetupLogger "" true }) = some Level.InfoLevel :=
  ⟨by
    have h := (ConfigureLogger_named "" (defaultFlags "") { globalLevel := Level.DebugLevel, logger := SetupLogger "" true }).2
    cases hb : isFatal (ConfigureLogger "" (defaultFlags "") false
        { globalLevel := Level.DebugLevel, logger := SetupLogger "" true })
    · rfl
    · exact absurd (h.1 hb) (by decide),
   (ConfigureLogger_named "" (defaultFlags "") { globalLevel := Level.DebugLevel, logger := SetupLogger "" true }).1
      ("info", Level.InfoLevel) (by decide)⟩

end Bootstrap
